import Mathlib

/-
Verification of the quad-view splitter and the frame-extraction scripts
of the lab-python repository (src/opencv/capture_channel.py,
src/opencv/frame_capture.py, src/opencv/add_frame_numbers.py).

A frame is modelled as a pixel grid: explicit height and width plus a
total pixel function.  The OpenCV primitives used by the code
(cv2.resize, cv2.rotate with rotateCode 2, NumPy 2-d slicing) are
embedded by their documented semantics; file I/O, seeking and display
calls are modelled as an event trace so that the error-handling claims
(what happens before the function returns False) can be stated.
-/

namespace LabPython

/-- A decoded video frame: a grid of pixels indexed by (row, column).
The pixel function is total; only indices below height/width are
meaningful. -/
structure Frame where
  height : Nat
  width : Nat
  pixel : Nat → Nat → Nat

/-- A degenerate frame, used as the default element for list lookups. -/
def emptyFrame : Frame := ⟨0, 0, fun _ _ => 0⟩

instance : Inhabited Frame := ⟨emptyFrame⟩

/-- Models cv2.resize(frame, (w, h)): the output has exactly the requested
width w and height h.  OpenCV interpolation is external to the repository;
pixel values are modelled by nearest-neighbour sampling, which the claims
never depend on (they only use the output dimensions). -/
def cv2resize (img : Frame) (w h : Nat) : Frame :=
  { width := w
    height := h
    pixel := fun r c => img.pixel (r * img.height / h) (c * img.width / w) }

/-- Models cv2.rotate(img, 2), i.e. cv2.ROTATE_90_COUNTERCLOCKWISE
(equivalently 270 degrees clockwise), as documented by OpenCV and by the
source comment in capture_channel.py line 28: dimensions swap and
dst(r, c) = src(c, srcWidth - 1 - r). -/
def cv2rotate270CW (img : Frame) : Frame :=
  { width := img.height
    height := img.width
    pixel := fun r c => img.pixel c (img.width - 1 - r) }

/-- Models the NumPy slice img[r0:r1, c0:c1] (with r0 ≤ r1 and c0 ≤ c1,
as in every slice the splitter takes). -/
def crop (img : Frame) (r0 r1 c0 c1 : Nat) : Frame :=
  { height := r1 - r0
    width := c1 - c0
    pixel := fun r c => img.pixel (r0 + r) (c0 + c) }

/-- The intermediate image of rotate_and_split_into_channels after the
resize and the rotation (capture_channel.py lines 30-31). -/
def rotatedFrame (frame : Frame) (IMAGE_WIDTH IMAGE_HEIGHT : Nat) : Frame :=
  cv2rotate270CW (cv2resize frame IMAGE_WIDTH IMAGE_HEIGHT)

/-- capture_channel.py, rotate_and_split_into_channels (lines 10-46):
resize to (IMAGE_WIDTH, IMAGE_HEIGHT), rotate 270 degrees clockwise, then
slice the rotated image into four quadrants at the floor-division
midlines, returning [ch1, ch2, ch3, ch4]. -/
def rotate_and_split_into_channels
    (frame : Frame) (IMAGE_WIDTH IMAGE_HEIGHT : Nat) : List Frame :=
  let img := rotatedFrame frame IMAGE_WIDTH IMAGE_HEIGHT
  let rotated_height := img.height
  let rotated_width := img.width
  let w_half := rotated_width / 2
  let h_half := rotated_height / 2
  let ch1 := crop img h_half rotated_height 0 w_half
  let ch2 := crop img 0 h_half 0 w_half
  let ch3 := crop img h_half rotated_height w_half rotated_width
  let ch4 := crop img 0 h_half w_half rotated_width
  [ch1, ch2, ch3, ch4]

/-- The row/column bounds of one quadrant of the rotated frame:
rows [r0, r1), columns [c0, c1). -/
structure Bounds where
  r0 : Nat
  r1 : Nat
  c0 : Nat
  c1 : Nat

instance : Inhabited Bounds := ⟨⟨0, 0, 0, 0⟩⟩

/-- The four slice bounds used by rotate_and_split_into_channels, in the
order [ch1, ch2, ch3, ch4] (capture_channel.py lines 36-44). -/
def channelBounds (rotated_height rotated_width : Nat) : List Bounds :=
  let w_half := rotated_width / 2
  let h_half := rotated_height / 2
  [⟨h_half, rotated_height, 0, w_half⟩,
   ⟨0, h_half, 0, w_half⟩,
   ⟨h_half, rotated_height, w_half, rotated_width⟩,
   ⟨0, h_half, w_half, rotated_width⟩]

/-- Pixel (r, c) of the rotated frame lies inside the bounds b. -/
def inRegion (b : Bounds) (r c : Nat) : Prop :=
  b.r0 ≤ r ∧ r < b.r1 ∧ b.c0 ≤ c ∧ c < b.c1

instance (b : Bounds) (r c : Nat) : Decidable (inRegion b r c) := by
  unfold inRegion; infer_instance

/-- A concrete test frame for counterexamples and witnesses (its own size
is irrelevant: the splitter resizes unconditionally). -/
def tf : Frame := ⟨2, 3, fun r c => r + c⟩

/-- Observable side effects of the frame-extraction scripts, in the order
they are performed.  Saving and displaying are opaque sinks; what the
claims need is whether a seek, a read or a release happened before the
function returned. -/
inductive Ev where
  | openVideo
  | seekFrame (n : Int)
  | readFrame
  | writeImage
  | showImage
  | releaseCap
deriving DecidableEq

/-- The environment a run observes through cv2.VideoCapture: whether the
file opens, the reported frame count and resolution, and for each frame
index the result of seeking there and calling cap.read (some frame on
success, none on decode failure). -/
structure VideoEnv where
  opens : Bool
  total_frames : Int
  original_width : Nat
  original_height : Nat
  readAt : Int → Option Frame

/-- frame_capture.py, capture_specific_frame (lines 7-67): open the
video, reject an out-of-range index (releasing the handle), seek, read,
and on success save and show the frame.  Returns the boolean result
paired with the trace of effects. -/
def capture_specific_frame (env : VideoEnv) (frame_number : Int) :
    Bool × List Ev :=
  if !env.opens then (false, [Ev.openVideo])
  else if frame_number ≥ env.total_frames ∨ frame_number < 0 then
    (false, [Ev.openVideo, Ev.releaseCap])
  else
    match env.readAt frame_number with
    | some _ =>
        (true, [Ev.openVideo, Ev.seekFrame frame_number, Ev.readFrame,
                Ev.writeImage, Ev.showImage, Ev.releaseCap])
    | none =>
        (false, [Ev.openVideo, Ev.seekFrame frame_number, Ev.readFrame,
                 Ev.releaseCap])

/-- capture_channel.py, capture_channel_from_frame (lines 49-149):
validate the channel number before anything else, open the video,
default the resize target to the source resolution, reject an
out-of-range frame index (releasing the handle), seek, read, split into
channels and save/show the selected one.  Returns the boolean result,
the trace of effects, and the channel image that was saved (if any). -/
def capture_channel_from_frame (env : VideoEnv) (frame_number channel : Int)
    (IMAGE_WIDTH IMAGE_HEIGHT : Option Nat) :
    Bool × List Ev × Option Frame :=
  if channel ∉ ([1, 2, 3, 4] : List Int) then (false, [], none)
  else if !env.opens then (false, [Ev.openVideo], none)
  else
    let W := IMAGE_WIDTH.getD env.original_width
    let H := IMAGE_HEIGHT.getD env.original_height
    if frame_number ≥ env.total_frames ∨ frame_number < 0 then
      (false, [Ev.openVideo, Ev.releaseCap], none)
    else
      match env.readAt frame_number with
      | none =>
          (false, [Ev.openVideo, Ev.seekFrame frame_number, Ev.readFrame,
                   Ev.releaseCap], none)
      | some frame =>
          let channels := rotate_and_split_into_channels frame W H
          let selected := channels.getD (channel - 1).toNat emptyFrame
          (true, [Ev.openVideo, Ev.seekFrame frame_number, Ev.readFrame,
                  Ev.writeImage, Ev.showImage, Ev.releaseCap],
           some selected)

/-- The per-index loop of capture_multiple_frames (frame_capture.py lines
91-107): skip an out-of-range index, seek and read otherwise, write the
image on success and log-and-continue on failure.  Returns the indices
for which an output file was written, in loop order. -/
def capture_frames_loop (env : VideoEnv) : List Int → List Int
  | [] => []
  | n :: rest =>
    if n ≥ env.total_frames ∨ n < 0 then capture_frames_loop env rest
    else
      match env.readAt n with
      | some _ => n :: capture_frames_loop env rest
      | none => capture_frames_loop env rest

/-- frame_capture.py, capture_multiple_frames (lines 71-109): none when
the video fails to open, otherwise the list of indices whose frames were
written out. -/
def capture_multiple_frames (env : VideoEnv) (frame_numbers : List Int) :
    Option (List Int) :=
  if !env.opens then none else some (capture_frames_loop env frame_numbers)

/-- The text burned into a frame by add_frame_numbers.py line 45. -/
def frameText (n : Nat) : String := "Frame: " ++ toString n

/-- One iteration of the annotation loop (add_frame_numbers.py lines
38-82): draw the counter text (with its translucent background) onto the
frame.  The cv2 drawing calls (getTextSize, rectangle, addWeighted,
putText) are external; the annotated frame is modelled as the source
frame paired with the burned-in text. -/
def annotateFrame (frame : Frame) (count : Nat) : Frame × String :=
  (frame, frameText count)

/-- The while loop of add_frame_numbers_to_video: read frames until the
stream ends, annotating each with the running counter and writing it to
the output video. -/
def annotate_loop : List Frame → Nat → List (Frame × String)
  | [], _ => []
  | f :: rest, count => annotateFrame f count :: annotate_loop rest (count + 1)

/-- add_frame_numbers.py, add_frame_numbers_to_video (lines 7-107):
fail if the input does not open or the writer cannot be created,
otherwise annotate every readable frame with the counter starting at 0.
Returns the boolean result and the frames written to the output video. -/
def add_frame_numbers_to_video (opensInput writerOpens : Bool)
    (frames : List Frame) : Bool × List (Frame × String) :=
  if !opensInput then (false, [])
  else if !writerOpens then (false, [])
  else (true, annotate_loop frames 0)

theorem rotate_and_split_eq_boundsMap (frame : Frame) (W H : Nat) :
    rotate_and_split_into_channels frame W H =
      (channelBounds (rotatedFrame frame W H).height
          (rotatedFrame frame W H).width).map
        (fun b => crop (rotatedFrame frame W H) b.r0 b.r1 b.c0 b.c1) := rfl

/-- The dimensions of the four returned sub-frames, read off the slice
bounds: heights W - W/2, W/2, W - W/2, W/2 and widths H/2, H/2, H - H/2,
H - H/2 for ch1, ch2, ch3, ch4 respectively (the rotated frame being W
tall and H wide). -/
theorem quad_dims (frame : Frame) (W H : Nat) :
    ((rotate_and_split_into_channels frame W H).getD 0 emptyFrame).height
      = W - W / 2 ∧
    ((rotate_and_split_into_channels frame W H).getD 0 emptyFrame).width
      = H / 2 ∧
    ((rotate_and_split_into_channels frame W H).getD 1 emptyFrame).height
      = W / 2 ∧
    ((rotate_and_split_into_channels frame W H).getD 1 emptyFrame).width
      = H / 2 ∧
    ((rotate_and_split_into_channels frame W H).getD 2 emptyFrame).height
      = W - W / 2 ∧
    ((rotate_and_split_into_channels frame W H).getD 2 emptyFrame).width
      = H - H / 2 ∧
    ((rotate_and_split_into_channels frame W H).getD 3 emptyFrame).height
      = W / 2 ∧
    ((rotate_and_split_into_channels frame W H).getD 3 emptyFrame).width
      = H - H / 2 :=
  ⟨rfl, rfl, rfl, rfl, rfl, rfl, rfl, rfl⟩

/-- C1, counterexample: with resize target width 3 and height 2 the
rotated frame is 3 rows tall, and the first returned sub-frame (ch1) has
2 rows, not floor(3/2) = 1 — so it is false that each of the four
sub-frames has exactly floor(H_rot/2) rows; the extra row of an
odd-height rotated frame is not dropped. -/
theorem c1_counterexample :
    ((rotate_and_split_into_channels tf 3 2).getD 0 emptyFrame).height ≠
      (rotatedFrame tf 3 2).height / 2 ∧
    ((rotate_and_split_into_channels tf 3 2).getD 0 emptyFrame).height = 2 ∧
    (rotatedFrame tf 3 2).height / 2 = 1 := by decide

/-- C1, amended: the four sub-frames of rotate_and_split_into_channels
have dimensions ch1: (H_rot - H_rot/2) × (W_rot/2), ch2: (H_rot/2) ×
(W_rot/2), ch3: (H_rot - H_rot/2) × (W_rot - W_rot/2), ch4: (H_rot/2) ×
(W_rot - W_rot/2); an odd rotated dimension leaves the extra row in ch1
and ch3 and the extra column in ch3 and ch4, so the quadrants' total
pixel area is always exactly W_rot × H_rot. -/
theorem c1_amended (frame : Frame) (W H : Nat) :
    ((rotate_and_split_into_channels frame W H).getD 0 emptyFrame).height =
      (rotatedFrame frame W H).height - (rotatedFrame frame W H).height / 2 ∧
    ((rotate_and_split_into_channels frame W H).getD 0 emptyFrame).width =
      (rotatedFrame frame W H).width / 2 ∧
    ((rotate_and_split_into_channels frame W H).getD 1 emptyFrame).height =
      (rotatedFrame frame W H).height / 2 ∧
    ((rotate_and_split_into_channels frame W H).getD 1 emptyFrame).width =
      (rotatedFrame frame W H).width / 2 ∧
    ((rotate_and_split_into_channels frame W H).getD 2 emptyFrame).height =
      (rotatedFrame frame W H).height - (rotatedFrame frame W H).height / 2 ∧
    ((rotate_and_split_into_channels frame W H).getD 2 emptyFrame).width =
      (rotatedFrame frame W H).width - (rotatedFrame frame W H).width / 2 ∧
    ((rotate_and_split_into_channels frame W H).getD 3 emptyFrame).height =
      (rotatedFrame frame W H).height / 2 ∧
    ((rotate_and_split_into_channels frame W H).getD 3 emptyFrame).width =
      (rotatedFrame frame W H).width - (rotatedFrame frame W H).width / 2 ∧
    ((rotate_and_split_into_channels frame W H).map
        (fun ch => ch.height * ch.width)).sum =
      (rotatedFrame frame W H).width * (rotatedFrame frame W H).height := by
  refine ⟨rfl, rfl, rfl, rfl, rfl, rfl, rfl, rfl, ?_⟩
  have hsum : ((rotate_and_split_into_channels frame W H).map
      (fun ch => ch.height * ch.width)).sum =
        (W - W / 2) * (H / 2) + ((W / 2) * (H / 2) +
        ((W - W / 2) * (H - H / 2) + ((W / 2) * (H - H / 2) + 0))) := rfl
  have hrot : (rotatedFrame frame W H).width *
      (rotatedFrame frame W H).height = H * W := rfl
  rw [hsum, hrot]
  have hh : W / 2 + (W - W / 2) = W := by omega
  have hw : H / 2 + (H - H / 2) = H := by omega
  calc (W - W / 2) * (H / 2) + ((W / 2) * (H / 2) +
        ((W - W / 2) * (H - H / 2) + ((W / 2) * (H - H / 2) + 0)))
      = (H / 2 + (H - H / 2)) * (W / 2 + (W - W / 2)) := by ring
    _ = H * W := by rw [hh, hw]

/-- Every pixel of an rh-tall, rw-wide rotated frame lies in exactly one
of the four slice regions used by the splitter. -/
theorem quad_partition (rh rw r c : Nat) (hr : r < rh) (hc : c < rw) :
    ∃! i : Nat, i < 4 ∧
      inRegion ((channelBounds rh rw).getD i default) r c := by
  by_cases h1 : r < rh / 2 <;> by_cases h2 : c < rw / 2
  · refine ⟨1, ⟨by omega, ?_⟩, ?_⟩
    · simp [channelBounds, inRegion, List.getD]; omega
    · rintro j ⟨hj4, hjreg⟩; interval_cases j <;>
        simp [channelBounds, inRegion, List.getD] at hjreg ⊢ <;> omega
  · refine ⟨3, ⟨by omega, ?_⟩, ?_⟩
    · simp [channelBounds, inRegion, List.getD]; omega
    · rintro j ⟨hj4, hjreg⟩; interval_cases j <;>
        simp [channelBounds, inRegion, List.getD] at hjreg ⊢ <;> omega
  · refine ⟨0, ⟨by omega, ?_⟩, ?_⟩
    · simp [channelBounds, inRegion, List.getD]; omega
    · rintro j ⟨hj4, hjreg⟩; interval_cases j <;>
        simp [channelBounds, inRegion, List.getD] at hjreg ⊢ <;> omega
  · refine ⟨2, ⟨by omega, ?_⟩, ?_⟩
    · simp [channelBounds, inRegion, List.getD]; omega
    · rintro j ⟨hj4, hjreg⟩; interval_cases j <;>
        simp [channelBounds, inRegion, List.getD] at hjreg ⊢ <;> omega

/-- C2: the four quadrants are the four rectangular (hence contiguous)
slice regions of the rotated frame, and every pixel (r, c) of the rotated
frame belongs to exactly one of them — no overlap, no gap. -/
theorem c2_quadrants_partition (frame : Frame) (W H r c : Nat)
    (hr : r < (rotatedFrame frame W H).height)
    (hc : c < (rotatedFrame frame W H).width) :
    (rotate_and_split_into_channels frame W H =
      (channelBounds (rotatedFrame frame W H).height
          (rotatedFrame frame W H).width).map
        (fun b => crop (rotatedFrame frame W H) b.r0 b.r1 b.c0 b.c1)) ∧
    ∃! i : Nat, i < 4 ∧
      inRegion ((channelBounds (rotatedFrame frame W H).height
          (rotatedFrame frame W H).width).getD i default) r c :=
  ⟨rotate_and_split_eq_boundsMap frame W H,
   quad_partition (rotatedFrame frame W H).height
     (rotatedFrame frame W H).width r c hr hc⟩

theorem c2_quadrants_partition_witness :
    (1 : Nat) < (rotatedFrame tf 2 3).height ∧
    (2 : Nat) < (rotatedFrame tf 2 3).width ∧
    ((rotate_and_split_into_channels tf 2 3 =
      (channelBounds (rotatedFrame tf 2 3).height
          (rotatedFrame tf 2 3).width).map
        (fun b => crop (rotatedFrame tf 2 3) b.r0 b.r1 b.c0 b.c1)) ∧
    ∃! i : Nat, i < 4 ∧
      inRegion ((channelBounds (rotatedFrame tf 2 3).height
          (rotatedFrame tf 2 3).width).getD i default) 1 2) :=
  ⟨by decide, by decide, c2_quadrants_partition tf 2 3 1 2 (by decide) (by decide)⟩

/-- C3: rotate_and_split_into_channels returns exactly four sub-frames in
the fixed order [ch1, ch2, ch3, ch4], where ch1 is the rotated frame's
bottom-left region (rows [h_half, H_rot), columns [0, w_half)), ch2 the
top-left, ch3 the bottom-right and ch4 the top-right, for every input
frame and resize target. -/
theorem c3_quadrant_layout (frame : Frame) (W H : Nat) :
    (rotate_and_split_into_channels frame W H).length = 4 ∧
    (rotate_and_split_into_channels frame W H).getD 0 emptyFrame =
      crop (rotatedFrame frame W H)
        ((rotatedFrame frame W H).height / 2) (rotatedFrame frame W H).height
        0 ((rotatedFrame frame W H).width / 2) ∧
    (rotate_and_split_into_channels frame W H).getD 1 emptyFrame =
      crop (rotatedFrame frame W H)
        0 ((rotatedFrame frame W H).height / 2)
        0 ((rotatedFrame frame W H).width / 2) ∧
    (rotate_and_split_into_channels frame W H).getD 2 emptyFrame =
      crop (rotatedFrame frame W H)
        ((rotatedFrame frame W H).height / 2) (rotatedFrame frame W H).height
        ((rotatedFrame frame W H).width / 2) (rotatedFrame frame W H).width ∧
    (rotate_and_split_into_channels frame W H).getD 3 emptyFrame =
      crop (rotatedFrame frame W H)
        0 ((rotatedFrame frame W H).height / 2)
        ((rotatedFrame frame W H).width / 2) (rotatedFrame frame W H).width :=
  ⟨rfl, rfl, rfl, rfl, rfl⟩

/-- C4: the rotation step maps a W × H resized frame to an H-wide,
W-tall frame, and pixel (r, c) of the rotated frame is pixel
(c, W - 1 - r) of the resized input — a 270-degree clockwise
(= 90-degree counter-clockwise) rotation. -/
theorem c4_rotation (frame : Frame) (W H r c : Nat)
    (_hr : r < W) (_hc : c < H) :
    (rotatedFrame frame W H).width = H ∧
    (rotatedFrame frame W H).height = W ∧
    (rotatedFrame frame W H).pixel r c =
      (cv2resize frame W H).pixel c (W - 1 - r) :=
  ⟨rfl, rfl, rfl⟩

theorem c4_rotation_witness :
    (0 : Nat) < 2 ∧ (1 : Nat) < 3 ∧
    ((rotatedFrame tf 2 3).width = 3 ∧
     (rotatedFrame tf 2 3).height = 2 ∧
     (rotatedFrame tf 2 3).pixel 0 1 =
       (cv2resize tf 2 3).pixel 1 (2 - 1 - 0)) :=
  ⟨by decide, by decide, c4_rotation tf 2 3 0 1 (by decide) (by decide)⟩

/-- C5, counterexample: with resize target 1280 × 720 the first returned
quadrant is 360 pixels wide (and 640 tall), not 640 wide and 360 tall as
the claim states. -/
theorem c5_counterexample :
    ((rotate_and_split_into_channels tf 1280 720).getD 0 emptyFrame).width
      ≠ 640 ∧
    ((rotate_and_split_into_channels tf 1280 720).getD 0 emptyFrame).width
      = 360 ∧
    ((rotate_and_split_into_channels tf 1280 720).getD 0 emptyFrame).height
      = 640 := by
  obtain ⟨h0h, h0w, -⟩ := quad_dims tf 1280 720
  rw [h0h, h0w]
  omega

/-- C5, amended: with target width 1280 and height 720 the rotated frame
is 720 wide and 1280 tall, its half-height is 640 and half-width 360, and
each of the four returned quadrants is 360 pixels wide and 640 pixels
tall. -/
theorem c5_amended (frame : Frame) :
    (rotate_and_split_into_channels frame 1280 720).length = 4 ∧
    ((rotate_and_split_into_channels frame 1280 720).getD 0 emptyFrame).width
      = 360 ∧
    ((rotate_and_split_into_channels frame 1280 720).getD 0 emptyFrame).height
      = 640 ∧
    ((rotate_and_split_into_channels frame 1280 720).getD 1 emptyFrame).width
      = 360 ∧
    ((rotate_and_split_into_channels frame 1280 720).getD 1 emptyFrame).height
      = 640 ∧
    ((rotate_and_split_into_channels frame 1280 720).getD 2 emptyFrame).width
      = 360 ∧
    ((rotate_and_split_into_channels frame 1280 720).getD 2 emptyFrame).height
      = 640 ∧
    ((rotate_and_split_into_channels frame 1280 720).getD 3 emptyFrame).width
      = 360 ∧
    ((rotate_and_split_into_channels frame 1280 720).getD 3 emptyFrame).height
      = 640 ∧
    (rotatedFrame frame 1280 720).width = 720 ∧
    (rotatedFrame frame 1280 720).height = 1280 ∧
    (rotatedFrame frame 1280 720).height / 2 = 640 ∧
    (rotatedFrame frame 1280 720).width / 2 = 360 := by
  obtain ⟨h0h, h0w, h1h, h1w, h2h, h2w, h3h, h3w⟩ := quad_dims frame 1280 720
  have hrh : (rotatedFrame frame 1280 720).height = 1280 := rfl
  have hrw : (rotatedFrame frame 1280 720).width = 720 := rfl
  rw [h0h, h0w, h1h, h1w, h2h, h2w, h3h, h3w, hrh, hrw]
  refine ⟨rfl, ?_, ?_, ?_, ?_, ?_, ?_, ?_, ?_, rfl, rfl, ?_, ?_⟩ <;> omega

/-- C10: the splitter resizes unconditionally, so the quadrant dimensions
depend only on the IMAGE_WIDTH and IMAGE_HEIGHT arguments and not on the
incoming frame; the rotated frame is W tall and H wide; and an odd
rotated dimension is kept, not dropped: ch1 and ch3 have ceil(H_rot/2)
rows and ch2 and ch4 floor(H_rot/2) rows, while ch3 and ch4 have
ceil(W_rot/2) columns and ch1 and ch2 floor(W_rot/2) columns. -/
theorem c10_unconditional_resize_ceil_floor (f1 f2 : Frame) (W H : Nat) :
    ((rotate_and_split_into_channels f1 W H).map
        (fun ch => (ch.height, ch.width)) =
      (rotate_and_split_into_channels f2 W H).map
        (fun ch => (ch.height, ch.width))) ∧
    (cv2resize f1 W H).width = W ∧ (cv2resize f1 W H).height = H ∧
    (rotatedFrame f1 W H).height = W ∧ (rotatedFrame f1 W H).width = H ∧
    ((rotate_and_split_into_channels f1 W H).getD 0 emptyFrame).height
      = (W + 1) / 2 ∧
    ((rotate_and_split_into_channels f1 W H).getD 2 emptyFrame).height
      = (W + 1) / 2 ∧
    ((rotate_and_split_into_channels f1 W H).getD 1 emptyFrame).height
      = W / 2 ∧
    ((rotate_and_split_into_channels f1 W H).getD 3 emptyFrame).height
      = W / 2 ∧
    ((rotate_and_split_into_channels f1 W H).getD 2 emptyFrame).width
      = (H + 1) / 2 ∧
    ((rotate_and_split_into_channels f1 W H).getD 3 emptyFrame).width
      = (H + 1) / 2 ∧
    ((rotate_and_split_into_channels f1 W H).getD 0 emptyFrame).width
      = H / 2 ∧
    ((rotate_and_split_into_channels f1 W H).getD 1 emptyFrame).width
      = H / 2 :=
  ⟨rfl, rfl, rfl, rfl, rfl,
   by show W - W / 2 = (W + 1) / 2; omega,
   by show W - W / 2 = (W + 1) / 2; omega,
   rfl, rfl,
   by show H - H / 2 = (H + 1) / 2; omega,
   by show H - H / 2 = (H + 1) / 2; omega,
   rfl, rfl⟩

theorem annotate_loop_length (fs : List Frame) (count : Nat) :
    (annotate_loop fs count).length = fs.length := by
  induction fs generalizing count with
  | nil => rfl
  | cons f rest ih => simp [annotate_loop, ih]

theorem annotate_loop_getD (fs : List Frame) (count k : Nat)
    (hk : k < fs.length) :
    (annotate_loop fs count).getD k (emptyFrame, "") =
      (fs.getD k emptyFrame, frameText (count + k)) := by
  induction fs generalizing count k with
  | nil => simp at hk
  | cons f rest ih =>
    cases k with
    | zero => simp [annotate_loop, annotateFrame]
    | succ k =>
      have harg : count + (k + 1) = (count + 1) + k := by omega
      simp only [annotate_loop, List.getD_cons_succ, harg]
      exact ih (count + 1) k (by simpa using hk)

/-- C6: when the input opens and the writer can be created,
add_frame_numbers_to_video writes exactly one output frame per input
frame, in input order, and the counter burned into the k-th output frame
is k, starting at 0. -/
theorem c6_frame_numbering (opensInput writerOpens : Bool)
    (frames : List Frame) (k : Nat)
    (ho : opensInput = true) (hw : writerOpens = true)
    (hk : k < frames.length) :
    (add_frame_numbers_to_video opensInput writerOpens frames).1 = true ∧
    (add_frame_numbers_to_video opensInput writerOpens frames).2.length =
      frames.length ∧
    (add_frame_numbers_to_video opensInput writerOpens frames).2.getD k
        (emptyFrame, "") =
      (frames.getD k emptyFrame, frameText k) := by
  subst ho hw
  refine ⟨rfl, ?_, ?_⟩
  · exact annotate_loop_length frames 0
  · have h := annotate_loop_getD frames 0 k hk
    simpa using h

theorem c6_frame_numbering_witness :
    true = true ∧ (1 : Nat) < ([tf, tf, tf] : List Frame).length ∧
    ((add_frame_numbers_to_video true true [tf, tf, tf]).1 = true ∧
     (add_frame_numbers_to_video true true [tf, tf, tf]).2.length =
       ([tf, tf, tf] : List Frame).length ∧
     (add_frame_numbers_to_video true true [tf, tf, tf]).2.getD 1
         (emptyFrame, "") =
       (([tf, tf, tf] : List Frame).getD 1 emptyFrame, frameText 1)) :=
  ⟨rfl, by decide, c6_frame_numbering true true [tf, tf, tf] 1 rfl rfl
    (by decide)⟩

/-- An environment for witnesses: the video opens, reports 5 frames at
4 × 4, and every seek-and-read succeeds. -/
def env0 : VideoEnv :=
  { opens := true
    total_frames := 5
    original_width := 4
    original_height := 4
    readAt := fun _ => some tf }

/-- C7: a channel number outside {1, 2, 3, 4} makes
capture_channel_from_frame return False with an empty effect trace — the
video is never opened, no seek, no read, no exception. -/
theorem c7_invalid_channel (env : VideoEnv) (frame_number channel : Int)
    (IW IH : Option Nat) (h : channel ∉ ([1, 2, 3, 4] : List Int)) :
    capture_channel_from_frame env frame_number channel IW IH =
      (false, [], none) := by
  simp [capture_channel_from_frame, h]

theorem c7_invalid_channel_witness :
    (7 : Int) ∉ ([1, 2, 3, 4] : List Int) ∧
    capture_channel_from_frame env0 0 7 none none = (false, [], none) :=
  ⟨by decide, c7_invalid_channel env0 0 7 none none (by decide)⟩

/-- C8: on an opened video, an out-of-range frame index (≥ total frame
count or negative) makes capture_specific_frame and (for a valid channel
number) capture_channel_from_frame return False with trace
[openVideo, releaseCap]: no seek, no read, and the handle is released
before returning. -/
theorem c8_out_of_range_rejected (env : VideoEnv)
    (frame_number channel : Int) (IW IH : Option Nat)
    (hopen : env.opens = true)
    (hch : channel ∈ ([1, 2, 3, 4] : List Int))
    (hrange : frame_number ≥ env.total_frames ∨ frame_number < 0) :
    capture_specific_frame env frame_number =
      (false, [Ev.openVideo, Ev.releaseCap]) ∧
    capture_channel_from_frame env frame_number channel IW IH =
      (false, [Ev.openVideo, Ev.releaseCap], none) := by
  constructor
  · simp [capture_specific_frame, hopen, hrange]
  · simp [capture_channel_from_frame, hopen, hrange, hch]

theorem c8_out_of_range_rejected_witness :
    env0.opens = true ∧ (1 : Int) ∈ ([1, 2, 3, 4] : List Int) ∧
    ((9 : Int) ≥ env0.total_frames ∨ (9 : Int) < 0) ∧
    (capture_specific_frame env0 9 =
      (false, [Ev.openVideo, Ev.releaseCap]) ∧
    capture_channel_from_frame env0 9 1 none none =
      (false, [Ev.openVideo, Ev.releaseCap], none)) :=
  ⟨rfl, by decide, by decide,
   c8_out_of_range_rejected env0 9 1 none none rfl (by decide) (by decide)⟩

theorem capture_frames_loop_filter (env : VideoEnv) (ns : List Int) :
    capture_frames_loop env ns =
      ns.filter (fun n =>
        decide (0 ≤ n) && decide (n < env.total_frames) &&
          (env.readAt n).isSome) := by
  induction ns with
  | nil => rfl
  | cons n rest ih =>
    rw [List.filter_cons]
    by_cases h : n ≥ env.total_frames ∨ n < 0
    · have hcond : (decide (0 ≤ n) && decide (n < env.total_frames) &&
          (env.readAt n).isSome) = false := by
        simp only [Bool.and_eq_false_iff, decide_eq_false_iff_not]
        left; omega
      rw [capture_frames_loop, if_pos h, hcond, ih]
      simp
    · have hcond : (decide (0 ≤ n) &&
          decide (n < env.total_frames)) = true := by
        simp only [Bool.and_eq_true, decide_eq_true_eq]
        omega
      rw [capture_frames_loop, if_neg h]
      cases hread : env.readAt n with
      | some f => simp [hread, hcond, ih]
      | none => simp [hread, hcond, ih]

/-- C9: on an opened video, capture_multiple_frames writes one output
file per requested index that is in range and whose read succeeds, in
list order; out-of-range indices and failed reads are skipped without
aborting the loop. -/
theorem c9_skip_and_continue (env : VideoEnv) (frame_numbers : List Int)
    (hopen : env.opens = true) :
    capture_multiple_frames env frame_numbers =
      some (frame_numbers.filter (fun n =>
        decide (0 ≤ n) && decide (n < env.total_frames) &&
          (env.readAt n).isSome)) := by
  rw [capture_multiple_frames, hopen]
  simp only [Bool.not_true, Bool.false_eq_true, if_false]
  exact congrArg some (capture_frames_loop_filter env frame_numbers)

/-- An environment whose reads fail at index 2: the video opens and
reports 5 frames, but cap.read succeeds only elsewhere. -/
def env1 : VideoEnv :=
  { opens := true
    total_frames := 5
    original_width := 4
    original_height := 4
    readAt := fun n => if n = 2 then none else some tf }

theorem c9_skip_and_continue_witness :
    env1.opens = true ∧
    capture_multiple_frames env1 [-1, 0, 2, 7, 3] = some [0, 3] :=
  ⟨rfl, by rw [c9_skip_and_continue env1 [-1, 0, 2, 7, 3] rfl]; decide⟩

end LabPython
